import Mathlib

/-!
Shallow embedding of `src/lib/settings/GatewayStorage.js` (klasa).

The gateway orchestrates one configuration domain: it owns a schema tree
(`SchemaFolder`, an external collaborator modelled from the spec), resolves a
provider by name from the client's provider registry, and drives a one-shot
initialization protocol (`init` = `initSchema` then `initTable`).

JavaScript effects are made explicit:
- the filesystem state around the single definition file is a `FS` record
  (directory existence, file state, plus environment fault flags so that a
  failing `ensureDir` / `outputJSONAtomic` can be expressed);
- provider calls (`hasTable`, `createTable`) and filesystem operations are
  recorded in logs so that "effect was / was not performed" is a statement
  about the result;
- a thrown exception is an unsuccessful outcome, with the mutations performed
  before the throw persisting in the returned state (matching how `this`
  mutations survive a rejected async method).
-/

/-- JSON-like values, as stored in schema defaults. -/
inductive JsValue where
  | null
  | bool (b : Bool)
  | str (s : String)
  | num (n : Int)
  | obj (fields : List (String × JsValue))

/-- Modelled from the spec: a Schema Tree node is either a piece (leaf: declared
type, default value, SQL column-type string) or a folder (ordered mapping of
name to child node). `SchemaFolder` itself is not part of the repository
fragment; the spec specifies the contract the gateway requires of it. -/
inductive SchemaNode where
  | piece (ptype : String) (defaultVal : JsValue) (sqlType : String)
  | folder (children : List (String × SchemaNode))

/-- A schema definition / the root folder's ordered children. -/
def Schema : Type := List (String × SchemaNode)

mutual

/-- Modelled from the spec: a node's current default value; a folder's default
is the recursive mapping of its children's defaults. -/
def nodeDefault : SchemaNode → JsValue
  | .piece _ d _ => d
  | .folder cs => .obj (childrenDefaults cs)

/-- Modelled from the spec: recursive mapping of name to each child's default. -/
def childrenDefaults : List (String × SchemaNode) → List (String × JsValue)
  | [] => []
  | (n, c) :: rest => (n, nodeDefault c) :: childrenDefaults rest

end

mutual

/-- Modelled from the spec: the column definitions contributed by one named
node — one `(name, sqlType)` pair per reachable leaf piece, in order. -/
def nodeSql (name : String) : SchemaNode → List (String × String)
  | .piece _ _ t => [(name, t)]
  | .folder cs => childrenSql cs

/-- Modelled from the spec: ordered flattened column definitions of a folder's
children (one per leaf piece, declaration order, recursively flattened). -/
def childrenSql : List (String × SchemaNode) → List (String × String)
  | [] => []
  | (n, c) :: rest => nodeSql n c ++ childrenSql rest

end

mutual

/-- Number of leaf pieces reachable from a node. -/
def nodeLeafCount : SchemaNode → Nat
  | .piece _ _ _ => 1
  | .folder cs => childrenLeafCount cs

/-- Number of leaf pieces reachable from a list of children. -/
def childrenLeafCount : List (String × SchemaNode) → Nat
  | [] => 0
  | (_, c) :: rest => nodeLeafCount c + childrenLeafCount rest

end

/-- Association-list lookup (first binding wins, like a JS object key). -/
def lookupKey : List (String × JsValue) → String → Option JsValue
  | [], _ => none
  | (k, v) :: rest, key => if k = key then some v else lookupKey rest key

/-- Does the association list bind the key? -/
def containsKey (l : List (String × JsValue)) (key : String) : Bool :=
  (lookupKey l key).isSome

/-- JS object-spread-then-assign semantics of `\x7b ...a, key: v \x7d`: when `key`
already occurs its value is replaced in place, otherwise the binding is
appended at the end. -/
def setKey : List (String × JsValue) → String → JsValue → List (String × JsValue)
  | [], key, v => [(key, v)]
  | (k, w) :: rest, key, v =>
      if k = key then (key, v) :: rest else (k, w) :: setKey rest key v

/-- JS `provider || default` from the constructor: an absent or falsy (empty)
string falls back to the registry's configured default provider name. -/
def jsOrDefault (provider : Option String) (defaultName : String) : String :=
  match provider with
  | some p => if p = "" then defaultName else p
  | none => defaultName

/-- A provider's backing store: tables by name, each remembering the column
definitions it was created with. -/
structure Provider where
  tables : List (String × List (String × String))

/-- Source `Provider#hasTable`: existence check, no side effects. -/
def Provider.hasTable (p : Provider) (name : String) : Bool :=
  p.tables.any (fun t => t.1 = name)

/-- Source `Provider#createTable`: create the backing table from a column list. -/
def Provider.createTable (p : Provider) (name : String)
    (columns : List (String × String)) : Provider :=
  ⟨p.tables ++ [(name, columns)]⟩

/-- The process-wide provider registry (`client.providers`): `get` by name,
yielding the first (unique) binding, `none` when the name is unregistered. -/
def providersGet : List (String × Provider) → String → Option Provider
  | [], _ => none
  | (k, p) :: rest, name => if k = name then some p else providersGet rest name

/-- Registry `set`: replace the named entry in place, or append it. -/
def providersSet (reg : List (String × Provider)) (name : String)
    (p : Provider) : List (String × Provider) :=
  match reg with
  | [] => [(name, p)]
  | (k, q) :: rest =>
      if k = name then (name, p) :: rest else (k, q) :: providersSet rest name p

/-- The mutable fields of a `GatewayStorage` instance together with its
read-only construction-time properties. -/
structure GatewayStorage where
  type : String
  providerName : String
  schema : Option Schema
  ready : Bool

/-- Constructor of `GatewayStorage`: cheap, no I/O; `schema` starts `null` and
`ready` starts false; `providerName` falls back to the client default. -/
def mkGatewayStorage (type : String) (provider : Option String)
    (defaultProviderName : String) : GatewayStorage :=
  { type := type
    providerName := jsOrDefault provider defaultProviderName
    schema := none
    ready := false }

/-- The synthetic identity column prepended by the `sqlSchema` getter. -/
def idColumn : String × String := ("id", "VARCHAR(19) NOT NULL UNIQUE PRIMARY KEY")

/-- Getter `sqlSchema`: `[[id, ...], ...this.schema.sqlSchema]`; dereferencing a
`null` schema throws, modelled as `none`. -/
def GatewayStorage.sqlSchema (g : GatewayStorage) :
    Option (List (String × String)) :=
  match g.schema with
  | none => none
  | some s => some (idColumn :: childrenSql s)

/-- Getter `provider`: `this.client.providers.get(this.providerName) || null` —
a fresh registry lookup on every access, `none` when unregistered. -/
def GatewayStorage.provider (g : GatewayStorage)
    (reg : List (String × Provider)) : Option Provider :=
  providersGet reg g.providerName

/-- Getter `defaults`: `\x7b ...this.schema.defaults, default: true \x7d`; dereferencing
a `null` schema throws, modelled as `none`. -/
def GatewayStorage.defaults (g : GatewayStorage) :
    Option (List (String × JsValue)) :=
  match g.schema with
  | none => none
  | some s => some (setKey (childrenDefaults s) "default" (.bool true))

/-- State of the definition file at `filePath`: absent, present but unparsable,
or present with parsable content. -/
inductive FileState where
  | absent
  | corrupt
  | valid (content : Schema)

/-- Effect `fs.readJSON`: succeeds exactly on a present, parsable file. -/
def readJSONFile : FileState → Option Schema
  | .valid s => some s
  | _ => none

/-- Filesystem state around the gateway's definition file, with environment
fault flags expressing that `ensureDir` / `outputJSONAtomic` may reject. -/
structure FS where
  dirExists : Bool
  file : FileState
  ensureDirFails : Bool
  writeFails : Bool

/-- Log entry for a filesystem operation performed by `initSchema`. -/
inductive FsOp where
  | ensureDir
  | readJSON
  | writeJSON
deriving DecidableEq

/-- Result of `initSchema`: the instance and filesystem afterwards, the
filesystem operations issued, and whether the call fulfilled (`ok`). -/
structure SchemaBootstrapResult where
  gateway : GatewayStorage
  fs : FS
  fsOps : List FsOp
  ok : Bool

/-- Source `GatewayStorage#initSchema`: `ensureDir(baseDir)`, then
`readJSON(filePath).catch(() => outputJSONAtomic(filePath, defaultSchema)
.then(() => defaultSchema))`, then `this.schema = new SchemaFolder(...)`.
The atomic write either lands whole or leaves the file untouched. -/
def GatewayStorage.initSchema (g : GatewayStorage) (fs : FS)
    (defaultSchema : Schema) : SchemaBootstrapResult :=
  if fs.ensureDirFails then
    { gateway := g, fs := fs, fsOps := [.ensureDir], ok := false }
  else
    let fs1 : FS := { fs with dirExists := true }
    match readJSONFile fs1.file with
    | some s =>
        { gateway := { g with schema := some s }, fs := fs1,
          fsOps := [.ensureDir, .readJSON], ok := true }
    | none =>
        if fs1.writeFails then
          { gateway := g, fs := fs1,
            fsOps := [.ensureDir, .readJSON, .writeJSON], ok := false }
        else
          { gateway := { g with schema := some defaultSchema },
            fs := { fs1 with file := .valid defaultSchema },
            fsOps := [.ensureDir, .readJSON, .writeJSON], ok := true }

/-- A provider call issued during the storage bootstrap. -/
inductive ProviderCall where
  | hasTable (name : String)
  | createTable (name : String) (columns : List (String × String))
deriving DecidableEq

/-- Result of `initTable`: the registry afterwards, the provider calls issued
in order, and whether the call fulfilled. -/
structure TableBootstrapResult where
  reg : List (String × Provider)
  calls : List ProviderCall
  ok : Bool

/-- Source `GatewayStorage#initTable`: `const hasTable = await
this.provider.hasTable(this.type); if (!hasTable) await
this.provider.createTable(this.type, this.sqlSchema);`. An unresolved
provider (`null.hasTable`) or a `null` schema on the create path throws. -/
def GatewayStorage.initTable (g : GatewayStorage)
    (reg : List (String × Provider)) : TableBootstrapResult :=
  match g.provider reg with
  | none => { reg := reg, calls := [], ok := false }
  | some p =>
      if p.hasTable g.type then
        { reg := reg, calls := [.hasTable g.type], ok := true }
      else
        match g.sqlSchema with
        | none => { reg := reg, calls := [.hasTable g.type], ok := false }
        | some cols =>
            { reg := providersSet reg g.providerName (p.createTable g.type cols),
              calls := [.hasTable g.type, .createTable g.type cols],
              ok := true }

/-- How one `init` call ended. -/
inductive InitOutcome where
  | ok
  | alreadyInitialized
  | schemaBootstrapError
  | tableBootstrapError
deriving DecidableEq

/-- Full observable result of one `init` call: post-states, both effect logs,
and the outcome. -/
structure InitResult where
  gateway : GatewayStorage
  fs : FS
  reg : List (String × Provider)
  fsOps : List FsOp
  calls : List ProviderCall
  outcome : InitOutcome

/-- Source `GatewayStorage#init`: `if (this.ready) throw ...; this.ready = true;
await this.initSchema(defaultSchema); await this.initTable();`. Note that
`ready` is set synchronously before either awaited effect. -/
def GatewayStorage.init (g : GatewayStorage) (fs : FS)
    (reg : List (String × Provider)) (defaultSchema : Schema) : InitResult :=
  if g.ready then
    { gateway := g, fs := fs, reg := reg, fsOps := [], calls := [],
      outcome := .alreadyInitialized }
  else
    let g1 : GatewayStorage := { g with ready := true }
    let r1 := g1.initSchema fs defaultSchema
    if r1.ok then
      let r2 := r1.gateway.initTable reg
      { gateway := r1.gateway, fs := r1.fs, reg := r2.reg, fsOps := r1.fsOps,
        calls := r2.calls,
        outcome := if r2.ok then .ok else .tableBootstrapError }
    else
      { gateway := r1.gateway, fs := r1.fs, reg := reg, fsOps := r1.fsOps,
        calls := [], outcome := .schemaBootstrapError }

/-! ### Concrete fixtures used by counterexamples and witnesses -/

/-- The spec's concrete scenario schema: one piece `prefix` defaulting to `"!"`. -/
def examplePrefixSchema : Schema :=
  [("prefix", .piece "string" (.str "!") "VARCHAR(10)")]

/-- A nested schema: a flat piece plus a folder with two pieces. -/
def exampleNestedSchema : Schema :=
  [("prefix", .piece "string" (.str "!") "VARCHAR(10)"),
   ("channels", .folder
      [("modlog", .piece "textchannel" .null "VARCHAR(18)"),
       ("announcements", .piece "textchannel" .null "VARCHAR(18)")])]

/-- A schema declaring a piece literally named `default`. -/
def exampleShadowSchema : Schema :=
  [("prefix", .piece "string" (.str "!") "VARCHAR(10)"),
   ("default", .piece "string" (.str "no") "VARCHAR(5)")]

/-- A freshly constructed gateway for the `guilds` domain. -/
def exampleGateway : GatewayStorage := mkGatewayStorage "guilds" (some "json") "json"

/-- An initialized gateway holding the concrete-scenario schema. -/
def examplePrefixGateway : GatewayStorage :=
  { type := "guilds", providerName := "json", schema := some examplePrefixSchema,
    ready := true }

/-- An initialized gateway holding the nested schema. -/
def exampleNestedGateway : GatewayStorage :=
  { type := "guilds", providerName := "json", schema := some exampleNestedSchema,
    ready := true }

/-- An initialized gateway holding the `default`-shadowing schema. -/
def exampleShadowGateway : GatewayStorage :=
  { type := "guilds", providerName := "json", schema := some exampleShadowSchema,
    ready := true }

/-- A healthy filesystem with no definition file yet. -/
def exampleGoodFS : FS :=
  { dirExists := false, file := .absent, ensureDirFails := false, writeFails := false }

/-- A filesystem whose `ensureDir` rejects (environment fault). -/
def exampleFailFS : FS :=
  { dirExists := false, file := .absent, ensureDirFails := true, writeFails := false }

/-- A registry binding `json` to a provider with an empty backing store. -/
def exampleRegistry : List (String × Provider) := [("json", ⟨[]⟩)]

/-! ### Helper lemmas -/

/-- `initSchema` never writes the `ready` flag. -/
theorem initSchema_ready (g : GatewayStorage) (fs : FS) (d : Schema) :
    (g.initSchema fs d).gateway.ready = g.ready := by
  unfold GatewayStorage.initSchema
  split
  · rfl
  · dsimp only
    split
    · rfl
    · split
      · rfl
      · rfl

/-- After any `init` call the instance's `ready` flag is true: either it
already was (and the call threw), or it was set synchronously before the
first awaited effect. -/
theorem init_ready (g : GatewayStorage) (fs : FS)
    (reg : List (String × Provider)) (d : Schema) :
    (g.init fs reg d).gateway.ready = true := by
  unfold GatewayStorage.init
  split
  · next h => exact h
  · dsimp only
    split
    · exact initSchema_ready _ _ _
    · exact initSchema_ready _ _ _

/-- Calling `init` on an instance whose `ready` flag is already set throws
immediately, leaving every piece of state untouched and issuing no effect. -/
theorem init_of_ready (g : GatewayStorage) (fs : FS)
    (reg : List (String × Provider)) (d : Schema) (h : g.ready = true) :
    g.init fs reg d =
      { gateway := g, fs := fs, reg := reg, fsOps := [], calls := [],
        outcome := .alreadyInitialized } := by
  unfold GatewayStorage.init
  rw [if_pos h]

/-- A fulfilled `initSchema` leaves a non-null schema on the instance. -/
theorem initSchema_ok_schema (g : GatewayStorage) (fs : FS) (d : Schema) :
    (g.initSchema fs d).ok = true → (g.initSchema fs d).gateway.schema.isSome := by
  unfold GatewayStorage.initSchema
  split
  · intro h; exact Bool.noConfusion h
  · dsimp only
    split
    · intro _; rfl
    · split
      · intro h; exact Bool.noConfusion h
      · intro _; rfl

/-- A fulfilled `init` leaves a non-null schema on the instance. -/
theorem init_ok_schema (g : GatewayStorage) (fs : FS)
    (reg : List (String × Provider)) (d : Schema)
    (hok : (g.init fs reg d).outcome = .ok) :
    (g.init fs reg d).gateway.schema.isSome := by
  unfold GatewayStorage.init at hok ⊢
  dsimp only at hok ⊢
  split
  · next hready => simp [hready] at hok
  · next hready =>
      split
      · next hr1 => exact initSchema_ok_schema _ _ _ hr1
      · next hr1 => simp [hready, hr1] at hok

/-! ### Claim theorems -/

/-- C1 counterexample: on a gateway whose schema bootstrap fails (here
`ensureDir` rejects), `init` rejects with a schema-bootstrap error yet leaves
`ready = true`, refuting "on failure of either effect, `ready` remains
false". -/
theorem init_failure_ready_counterexample :
    (exampleGateway.init exampleFailFS [] examplePrefixSchema).outcome =
      .schemaBootstrapError ∧
    (exampleGateway.init exampleFailFS [] examplePrefixSchema).gateway.ready = true :=
  ⟨rfl, rfl⟩

/-- C1 (amended): `init` sets `ready` to true synchronously before running
either bootstrap effect, so after any `init` call on a not-yet-initialized
gateway — succeeding or failing — `ready` is true; a failed `init` therefore
leaves `ready = true` rather than false. -/
theorem init_sets_ready_before_effects (g : GatewayStorage) (fs : FS)
    (reg : List (String × Provider)) (d : Schema) (_h : g.ready = false) :
    (g.init fs reg d).gateway.ready = true ∧
    ((g.init fs reg d).outcome ≠ .ok →
      (g.init fs reg d).gateway.ready = true) :=
  ⟨init_ready g fs reg d, fun _ => init_ready g fs reg d⟩

/-- C1 (amended) witness: the amended theorem applied to the concrete failing
run. -/
theorem init_sets_ready_before_effects_witness :
    (exampleGateway.init exampleFailFS [] examplePrefixSchema).gateway.ready = true :=
  (init_sets_ready_before_effects exampleGateway exampleFailFS [] examplePrefixSchema
    rfl).1

/-- C2 counterexample: after a failed `init` the gateway has `ready = true`
while `schema` is still null, refuting "`schema` is non-null iff `ready` is
true" at the after-init-fails point of the lifetime. -/
theorem schema_iff_ready_counterexample :
    (exampleGateway.init exampleFailFS [] examplePrefixSchema).gateway.ready = true ∧
    (exampleGateway.init exampleFailFS [] examplePrefixSchema).gateway.schema = none :=
  ⟨rfl, rfl⟩

/-- C2 (amended): the equivalence "`schema` non-null iff `ready`" holds after
construction (both absent/false) and after a successful `init` (both
present/true); it does not survive a failed `init`, where `ready` is true
with a null schema. -/
theorem schema_iff_ready_on_construction_and_success
    (type : String) (provider : Option String) (dflt : String)
    (fs : FS) (reg : List (String × Provider)) (d : Schema)
    (hok : ((mkGatewayStorage type provider dflt).init fs reg d).outcome = .ok) :
    ((mkGatewayStorage type provider dflt).schema.isSome ↔
      (mkGatewayStorage type provider dflt).ready = true) ∧
    (((mkGatewayStorage type provider dflt).init fs reg d).gateway.schema.isSome ↔
      ((mkGatewayStorage type provider dflt).init fs reg d).gateway.ready = true) := by
  constructor
  · simp [mkGatewayStorage]
  · constructor
    · intro _; exact init_ready _ _ _ _
    · intro _; exact init_ok_schema _ _ _ _ hok

/-- C2 (amended) witness: the amended theorem at the concrete successful run
of the spec's scenario. -/
theorem schema_iff_ready_witness :
    ((mkGatewayStorage "guilds" (some "json") "json").schema.isSome ↔
      (mkGatewayStorage "guilds" (some "json") "json").ready = true) ∧
    (((mkGatewayStorage "guilds" (some "json") "json").init exampleGoodFS
        exampleRegistry examplePrefixSchema).gateway.schema.isSome ↔
      ((mkGatewayStorage "guilds" (some "json") "json").init exampleGoodFS
        exampleRegistry examplePrefixSchema).gateway.ready = true) :=
  schema_iff_ready_on_construction_and_success "guilds" (some "json") "json"
    exampleGoodFS exampleRegistry examplePrefixSchema rfl

/-- C3: after any `init` call, a further `init` call always throws the
AlreadyInitialized-style error, performs neither bootstrap effect (no
filesystem operation, no `hasTable`/`createTable` provider call), and leaves
the gateway, filesystem and registry untouched. -/
theorem init_second_call_throws_without_effects (g : GatewayStorage)
    (fs : FS) (reg : List (String × Provider)) (d : Schema)
    (fs2 : FS) (reg2 : List (String × Provider)) (d2 : Schema) :
    ((g.init fs reg d).gateway.init fs2 reg2 d2).outcome = .alreadyInitialized ∧
    ((g.init fs reg d).gateway.init fs2 reg2 d2).fsOps = [] ∧
    ((g.init fs reg d).gateway.init fs2 reg2 d2).calls = [] ∧
    ((g.init fs reg d).gateway.init fs2 reg2 d2).gateway = (g.init fs reg d).gateway ∧
    ((g.init fs reg d).gateway.init fs2 reg2 d2).fs = fs2 ∧
    ((g.init fs reg d).gateway.init fs2 reg2 d2).reg = reg2 := by
  rw [init_of_ready _ fs2 reg2 d2 (init_ready g fs reg d)]
  exact ⟨rfl, rfl, rfl, rfl, rfl, rfl⟩

mutual

/-- A node contributes exactly one column per reachable leaf piece. -/
theorem nodeSql_length (name : String) (c : SchemaNode) :
    (nodeSql name c).length = nodeLeafCount c := by
  cases c with
  | piece t d sq => rfl
  | folder cs => exact childrenSql_length cs

/-- A child list's flattened columns number exactly its reachable leaf pieces. -/
theorem childrenSql_length (cs : List (String × SchemaNode)) :
    (childrenSql cs).length = childrenLeafCount cs := by
  cases cs with
  | nil => rfl
  | cons hd tl =>
      show (nodeSql hd.1 hd.2 ++ childrenSql tl).length = _
      rw [List.length_append, nodeSql_length, childrenSql_length]
      rfl

end

/-- C4: for every schema tree shape, once the gateway's schema is set, the
`sqlSchema` getter yields the identity column definition followed by exactly
the tree's flattened column definitions in declaration order, one per leaf
piece. -/
theorem sqlSchema_identity_then_columns (g : GatewayStorage) (s : Schema)
    (h : g.schema = some s) :
    g.sqlSchema =
      some (("id", "VARCHAR(19) NOT NULL UNIQUE PRIMARY KEY") :: childrenSql s) ∧
    (childrenSql s).length = childrenLeafCount s := by
  constructor
  · unfold GatewayStorage.sqlSchema
    rw [h]
    rfl
  · exact childrenSql_length s

/-- C4 witness: the theorem at the concrete nested schema. -/
theorem sqlSchema_identity_then_columns_witness :
    exampleNestedGateway.sqlSchema =
      some (("id", "VARCHAR(19) NOT NULL UNIQUE PRIMARY KEY") ::
        childrenSql exampleNestedSchema) ∧
    (childrenSql exampleNestedSchema).length = childrenLeafCount exampleNestedSchema :=
  sqlSchema_identity_then_columns exampleNestedGateway exampleNestedSchema rfl

/-- C5: when the definition file is absent or unparsable and the environment
is healthy, `initSchema` fulfills (no error for that condition), writes the
supplied default definition to the file, and uses it as the effective
definition for the schema tree. -/
theorem initSchema_heals_absent_or_corrupt (g : GatewayStorage) (fs : FS)
    (d : Schema)
    (hfile : fs.file = .absent ∨ fs.file = .corrupt)
    (hdir : fs.ensureDirFails = false) (hw : fs.writeFails = false) :
    (g.initSchema fs d).ok = true ∧
    (g.initSchema fs d).fs.file = .valid d ∧
    (g.initSchema fs d).gateway.schema = some d := by
  rcases hfile with h | h <;>
    simp [GatewayStorage.initSchema, h, hdir, hw, readJSONFile]

/-- C5 witness: the theorem at the concrete absent-file filesystem. -/
theorem initSchema_heals_witness :
    (exampleGateway.initSchema exampleGoodFS examplePrefixSchema).ok = true ∧
    (exampleGateway.initSchema exampleGoodFS examplePrefixSchema).fs.file =
      .valid examplePrefixSchema ∧
    (exampleGateway.initSchema exampleGoodFS examplePrefixSchema).gateway.schema =
      some examplePrefixSchema :=
  initSchema_heals_absent_or_corrupt exampleGateway exampleGoodFS examplePrefixSchema
    (Or.inl rfl) rfl rfl

/-- A fulfilled `initSchema` leaves the file valid and the `ensureDir` fault
flag clear. -/
theorem initSchema_ok_fs (g : GatewayStorage) (fs : FS) (d : Schema)
    (hok : (g.initSchema fs d).ok = true) :
    (∃ s, (g.initSchema fs d).fs.file = .valid s) ∧
    (g.initSchema fs d).fs.ensureDirFails = false := by
  unfold GatewayStorage.initSchema at hok ⊢
  dsimp only at hok ⊢
  split
  · next hd => simp [hd] at hok
  · next hd =>
      have hdf : fs.ensureDirFails = false := by
        simpa using hd
      split
      · next s hs =>
          refine ⟨⟨s, ?_⟩, hdf⟩
          cases hfile : fs.file with
          | valid c => simp [readJSONFile, hfile] at hs; simp [hfile, hs]
          | absent => simp [readJSONFile, hfile] at hs
          | corrupt => simp [readJSONFile, hfile] at hs
      · next hs =>
          split
          · next hwf => simp [hd, hs, hwf] at hok
          · exact ⟨⟨d, rfl⟩, hdf⟩

/-- Reading a present, valid definition file: `initSchema` keeps the file
untouched, performs no write, fulfills, and loads the file's content. -/
theorem initSchema_valid_no_write (g : GatewayStorage) (fs : FS) (d s : Schema)
    (hfile : fs.file = .valid s) (hdir : fs.ensureDirFails = false) :
    (g.initSchema fs d).fs.file = fs.file ∧
    (g.initSchema fs d).fsOps = [.ensureDir, .readJSON] ∧
    (g.initSchema fs d).ok = true ∧
    (g.initSchema fs d).gateway.schema = some s := by
  simp [GatewayStorage.initSchema, hfile, hdir, readJSONFile]

/-- C9: schema bootstrap is idempotent over the definition file: after any
fulfilled `initSchema` run, a second run (any instance, any default) leaves
the file's content unchanged, performs no write operation, and fulfills. -/
theorem initSchema_idempotent_on_file (g g2 : GatewayStorage) (fs : FS)
    (d d2 : Schema)
    (hok : (g.initSchema fs d).ok = true) :
    (g2.initSchema (g.initSchema fs d).fs d2).fs.file = (g.initSchema fs d).fs.file ∧
    FsOp.writeJSON ∉ (g2.initSchema (g.initSchema fs d).fs d2).fsOps ∧
    (g2.initSchema (g.initSchema fs d).fs d2).ok = true := by
  obtain ⟨⟨s, hf⟩, hd⟩ := initSchema_ok_fs g fs d hok
  obtain ⟨h1, h2, h3, _⟩ := initSchema_valid_no_write g2 (g.initSchema fs d).fs d2 s hf hd
  refine ⟨h1.trans rfl, ?_, h3⟩
  rw [h2]
  simp

/-- C9 witness: the theorem at a concrete first run that created the file. -/
theorem initSchema_idempotent_on_file_witness :
    (exampleGateway.initSchema
        (exampleGateway.initSchema exampleGoodFS examplePrefixSchema).fs
        exampleNestedSchema).fs.file =
      (exampleGateway.initSchema exampleGoodFS examplePrefixSchema).fs.file ∧
    FsOp.writeJSON ∉ (exampleGateway.initSchema
        (exampleGateway.initSchema exampleGoodFS examplePrefixSchema).fs
        exampleNestedSchema).fsOps ∧
    (exampleGateway.initSchema
        (exampleGateway.initSchema exampleGoodFS examplePrefixSchema).fs
        exampleNestedSchema).ok = true :=
  initSchema_idempotent_on_file exampleGateway exampleGateway exampleGoodFS
    examplePrefixSchema exampleNestedSchema rfl

/-- Looking up the assigned key after a spread-assign yields the new value. -/
theorem lookupKey_setKey_self (l : List (String × JsValue)) (k : String)
    (v : JsValue) : lookupKey (setKey l k v) k = some v := by
  induction l with
  | nil => simp [setKey, lookupKey]
  | cons hd tl ih =>
      obtain ⟨k0, w⟩ := hd
      by_cases h : k0 = k
      · simp [setKey, h, lookupKey]
      · simp [setKey, h, lookupKey, ih]

/-- Looking up any other key after a spread-assign is unchanged. -/
theorem lookupKey_setKey_ne (l : List (String × JsValue)) (k k' : String)
    (v : JsValue) (h : k' ≠ k) :
    lookupKey (setKey l k v) k' = lookupKey l k' := by
  induction l with
  | nil => simp [setKey, lookupKey, Ne.symm h]
  | cons hd tl ih =>
      obtain ⟨k0, w⟩ := hd
      by_cases hk : k0 = k
      · subst hk
        simp [setKey, lookupKey, Ne.symm h]
      · by_cases hk' : k0 = k'
        · simp [setKey, hk, lookupKey, hk', h]
        · simp [setKey, hk, lookupKey, hk', ih]

/-- Spread-assign over a list already binding the key replaces in place and
keeps the length. -/
theorem setKey_length_of_contains (l : List (String × JsValue)) (k : String)
    (v : JsValue) (h : containsKey l k = true) :
    (setKey l k v).length = l.length := by
  induction l with
  | nil => simp [containsKey, lookupKey] at h
  | cons hd tl ih =>
      obtain ⟨k0, w⟩ := hd
      by_cases hk : k0 = k
      · simp [setKey, hk]
      · have htl : containsKey tl k = true := by
          simpa [containsKey, lookupKey, hk] using h
        simp [setKey, hk, ih htl]

/-- C6: on an initialized gateway, `defaults` is exactly the schema tree's
recursive default mapping merged with the synthetic flag `default` bound to
true: the flag reads back as true, and every other key reads back its
schema-declared default. -/
theorem defaults_merges_default_flag (g : GatewayStorage) (s : Schema)
    (h : g.schema = some s) :
    g.defaults = some (setKey (childrenDefaults s) "default" (.bool true)) ∧
    lookupKey (setKey (childrenDefaults s) "default" (.bool true)) "default" =
      some (.bool true) ∧
    ∀ k, k ≠ "default" →
      lookupKey (setKey (childrenDefaults s) "default" (.bool true)) k =
        lookupKey (childrenDefaults s) k := by
  refine ⟨?_, lookupKey_setKey_self _ _ _, fun k hk => lookupKey_setKey_ne _ _ _ _ hk⟩
  unfold GatewayStorage.defaults
  rw [h]

/-- C6 witness: the spec's concrete scenario — after loading the `prefix`
schema, `defaults` is `[(prefix, "!"), (default, true)]`, the flag reads true
and `prefix` reads its declared default. -/
theorem defaults_merges_default_flag_witness :
    examplePrefixGateway.defaults =
      some [("prefix", JsValue.str "!"), ("default", JsValue.bool true)] ∧
    lookupKey (setKey (childrenDefaults examplePrefixSchema) "default" (.bool true))
      "default" = some (.bool true) ∧
    lookupKey (setKey (childrenDefaults examplePrefixSchema) "default" (.bool true))
      "prefix" = lookupKey (childrenDefaults examplePrefixSchema) "prefix" := by
  have h := defaults_merges_default_flag examplePrefixGateway examplePrefixSchema rfl
  exact ⟨h.1.trans (by rfl), h.2.1, h.2.2 "prefix" (by decide)⟩

/-- C10: when the schema tree itself declares a key named `default`, the
`defaults` getter shadows it: the returned mapping binds `default` to true
(in place, keeping the mapping's size), while every other key keeps its
schema-declared default. -/
theorem defaults_shadow_declared_default (g : GatewayStorage) (s : Schema)
    (h : g.schema = some s)
    (hc : containsKey (childrenDefaults s) "default" = true) :
    g.defaults = some (setKey (childrenDefaults s) "default" (.bool true)) ∧
    lookupKey (setKey (childrenDefaults s) "default" (.bool true)) "default" =
      some (.bool true) ∧
    (setKey (childrenDefaults s) "default" (.bool true)).length =
      (childrenDefaults s).length ∧
    ∀ k, k ≠ "default" →
      lookupKey (setKey (childrenDefaults s) "default" (.bool true)) k =
        lookupKey (childrenDefaults s) k := by
  refine ⟨?_, lookupKey_setKey_self _ _ _, setKey_length_of_contains _ _ _ hc,
    fun k hk => lookupKey_setKey_ne _ _ _ _ hk⟩
  unfold GatewayStorage.defaults
  rw [h]

/-- C10 witness: a schema declaring a piece named `default` (default `"no"`);
the getter rebinds it to `true` and leaves `prefix` alone. -/
theorem defaults_shadow_declared_default_witness :
    exampleShadowGateway.defaults =
      some (setKey (childrenDefaults exampleShadowSchema) "default" (.bool true)) ∧
    lookupKey (setKey (childrenDefaults exampleShadowSchema) "default" (.bool true))
      "default" = some (.bool true) ∧
    (setKey (childrenDefaults exampleShadowSchema) "default" (.bool true)).length =
      (childrenDefaults exampleShadowSchema).length ∧
    lookupKey (setKey (childrenDefaults exampleShadowSchema) "default" (.bool true))
      "prefix" = lookupKey (childrenDefaults exampleShadowSchema) "prefix" := by
  have h := defaults_shadow_declared_default exampleShadowGateway exampleShadowSchema
    rfl (by decide)
  exact ⟨h.1, h.2.1, h.2.2.1, h.2.2.2 "prefix" (by decide)⟩

/-- Registry lookup after `set` finds the freshly registered provider. -/
theorem providersGet_set_self (reg : List (String × Provider)) (name : String)
    (p : Provider) : providersGet (providersSet reg name p) name = some p := by
  induction reg with
  | nil => simp [providersSet, providersGet]
  | cons hd tl ih =>
      obtain ⟨k, q⟩ := hd
      by_cases h : k = name
      · simp [providersSet, h, providersGet]
      · simp [providersSet, h, providersGet, ih]

/-- C7: the `provider` getter performs a fresh registry lookup on every
access: while the name is unregistered it returns null (not an error), and
after the provider is registered — even though registration happened after
the gateway's construction — the same getter returns it. -/
theorem provider_fresh_lookup_no_cache (type pn dflt : String)
    (reg : List (String × Provider)) (p : Provider)
    (hpn : pn ≠ "") (h : providersGet reg pn = none) :
    (mkGatewayStorage type (some pn) dflt).provider reg = none ∧
    (mkGatewayStorage type (some pn) dflt).provider (providersSet reg pn p) =
      some p := by
  have hname : (mkGatewayStorage type (some pn) dflt).providerName = pn := by
    simp [mkGatewayStorage, jsOrDefault, hpn]
  constructor
  · unfold GatewayStorage.provider
    rw [hname]
    exact h
  · unfold GatewayStorage.provider
    rw [hname]
    exact providersGet_set_self reg pn p

/-- C7 witness: the theorem at an empty registry later extended with `json`. -/
theorem provider_fresh_lookup_no_cache_witness :
    (mkGatewayStorage "guilds" (some "json") "level").provider [] = none ∧
    (mkGatewayStorage "guilds" (some "json") "level").provider
      (providersSet [] "json" ⟨[]⟩) = some ⟨[]⟩ :=
  provider_fresh_lookup_no_cache "guilds" "json" "level" [] ⟨[]⟩ (by decide) rfl

/-- C8: in the storage bootstrap, `hasTable(type)` is queried first; when it
answers true, no `createTable` call is issued; when it answers false,
`createTable(type, sqlSchema)` is issued exactly once, right after the
`hasTable` query. -/
theorem initTable_creates_iff_missing (g : GatewayStorage)
    (reg : List (String × Provider)) (p : Provider) (s : Schema)
    (hp : g.provider reg = some p) (hs : g.schema = some s) :
    (p.hasTable g.type = true →
      (g.initTable reg).calls = [.hasTable g.type] ∧ (g.initTable reg).ok = true) ∧
    (p.hasTable g.type = false →
      (g.initTable reg).calls =
        [.hasTable g.type, .createTable g.type (idColumn :: childrenSql s)] ∧
      (g.initTable reg).ok = true) := by
  have hsql : g.sqlSchema = some (idColumn :: childrenSql s) := by
    unfold GatewayStorage.sqlSchema
    rw [hs]
  constructor
  · intro ht
    simp [GatewayStorage.initTable, hp, ht]
  · intro ht
    simp [GatewayStorage.initTable, hp, ht, hsql]

/-- C8 witness: against a provider with no `guilds` table, the bootstrap
queries `hasTable` then creates the table with the identity column plus the
schema's columns, exactly once. -/
theorem initTable_creates_iff_missing_witness :
    (examplePrefixGateway.initTable exampleRegistry).calls =
      [.hasTable "guilds",
       .createTable "guilds" (idColumn :: childrenSql examplePrefixSchema)] ∧
    (examplePrefixGateway.initTable exampleRegistry).ok = true := by
  have h := initTable_creates_iff_missing examplePrefixGateway exampleRegistry
    ⟨[]⟩ examplePrefixSchema rfl rfl
  exact h.2 rfl
